import Mathlib

/-
Verification of the goal execution engine of the Robotiq 85 gripper action
server (robotiq_85_driver/single_robotiq_85_action_server.py).

The server is embedded shallowly.  Python floats are modelled as rationals;
every property verified here is a control-flow or comparison property, not a
rounding property.  The polling loop of Robotiq85ActionServer._execute_callback
is a function over a finite list of tick observations: at each loop iteration
the code reads the clock (giving the elapsed time dt), the shared status cell
self._stat (written by the subscription callback _update_gripper_stat), and --
although the code never does -- the cancellation flag of the goal handle.
A Tick records what those reads would return at that iteration.  Running the
loop over a tick list yields the mutated feedback message, the trace of
observable events (command publication, feedback publications, the succeed
call), the terminal outcome, and the ticks left unpolled after the loop exits.
-/

namespace Robotiq85

/-- The fields of a robotiq_85_msgs/GripperStat message that
Robotiq85ActionServer._execute_callback reads: position, is_moving and
obj_detected (source lines 149, 150 and 153). -/
structure GripperStat where
  position : ℚ
  is_moving : Bool
  obj_detected : Bool
deriving Repr, DecidableEq

/-- The part of a control_msgs/GripperCommand goal that the server reads:
goal_handle.request.command.position and goal_handle.request.command.max_effort
(source lines 120, 121 and 153). -/
structure GoalRequest where
  position : ℚ
  max_effort : ℚ
deriving Repr, DecidableEq

/-- The three ROS parameters declared in Robotiq85ActionServer.__init__
(source lines 64 to 70): timeout, position_tolerance and gripper_speed. -/
structure Config where
  timeout : ℚ
  position_tolerance : ℚ
  gripper_speed : ℚ
deriving Repr, DecidableEq

/-- The declared parameter defaults: timeout 5.0, position_tolerance 0.005,
gripper_speed 0.0565 (source lines 64 to 66). -/
def defaultConfig : Config :=
  { timeout := 5, position_tolerance := 1 / 200, gripper_speed := 113 / 2000 }

/-- A control_msgs/GripperCommand feedback message: the fields position,
stalled and reached_goal that the loop mutates (source lines 149, 150, 154).
A freshly constructed message has all fields zero-initialised. -/
structure Feedback where
  position : ℚ
  stalled : Bool
  reached_goal : Bool
deriving Repr, DecidableEq

/-- GripperCommand.Feedback() as constructed on source line 129: ROS messages
are zero-initialised, so position 0.0, stalled False, reached_goal False. -/
def initFeedback : Feedback :=
  { position := 0, stalled := false, reached_goal := false }

/-- The robotiq_85_msgs/GripperCmd message published to /gripper/cmd:
the fields position, force and speed set on source lines 119 to 122. -/
structure GripperCmd where
  position : ℚ
  force : ℚ
  speed : ℚ
deriving Repr, DecidableEq

/-- One iteration of the polling loop observes: the elapsed time
dt = get_time() - start_time (source line 138), the current value of the
shared status cell self._stat (source line 146), and whether the caller has
requested cancellation of the goal by this iteration.  The cancellation field
is recorded because the action protocol exposes it, but _execute_callback
never consults goal_handle.is_cancel_requested, so the loop ignores it. -/
structure Tick where
  dt : ℚ
  stat : Option GripperStat
  cancelRequested : Bool
deriving Repr, DecidableEq

/-- The observable events emitted while executing a goal: the single command
publication self._gripper_pub.publish (source line 124), each
goal_handle.publish_feedback (source line 157), and the goal_handle.succeed
call (source line 160). -/
inductive Event where
  | cmdSent (c : GripperCmd)
  | feedback (f : Feedback)
  | succeed
deriving Repr, DecidableEq

/-- How the polling loop ended: succeeded via goal_handle.succeed and break
(source lines 160, 161), timedOut via the break on source line 143, or
running when the supplied tick list was exhausted before any break fired.
The code has no cancellation path, so no further outcome is reachable. -/
inductive Outcome where
  | succeeded
  | timedOut
  | running
deriving Repr, DecidableEq

/-- The value produced by the final statement of _execute_callback.  Source
line 167 is return result, but no local named result is ever bound in the
function (the locals are cmd_msg, thread, feedback_msg, result_msg, rate,
start_time and dt; line 166 assigns result_msg, not result), so once the loop
exits, CPython raises NameError for the name result instead of returning a
value.  nameError records that raised lookup failure. -/
inductive ExecReturn where
  | value (r : Feedback)
  | nameError (missing : String)
deriving Repr, DecidableEq

/-- The condition on source line 153:
fabs(goal.position - status.position) < position_tolerance or obj_detected
(feedback_msg.position holds status.position there, assigned on line 149). -/
def reachedCond (cfg : Config) (goal : GoalRequest) (s : GripperStat) : Bool :=
  decide (|goal.position - s.position| < cfg.position_tolerance) || s.obj_detected

/-- The mutation of feedback_msg on one status-carrying iteration (source
lines 149 to 155): position and stalled are overwritten from the status, and
reached_goal is set to True when the line 153 condition holds, otherwise left
as it was (the code never resets it to False). -/
def tickFeedback (cfg : Config) (goal : GoalRequest) (fb : Feedback)
    (s : GripperStat) : Feedback :=
  let fb1 : Feedback := { fb with position := s.position, stalled := !s.is_moving }
  if reachedCond cfg goal s then { fb1 with reached_goal := true } else fb1

/-- What running the polling loop over a tick list produces: the final state
of feedback_msg, the events emitted inside the loop in order, the outcome,
the ticks whose bodies were executed past the timeout check (in order), and
the ticks never reached because the loop broke first. -/
structure LoopResult where
  feedback_msg : Feedback
  events : List Event
  outcome : Outcome
  polled : List Tick
  rest : List Tick
deriving Repr, DecidableEq

/-- The polling loop of _execute_callback (source lines 137 to 163), run over
a finite list of tick observations.  Per iteration: if not (dt < timeout),
break with timedOut (lines 141 to 143); else if self._stat is None, only log
and fall through to rate.sleep (lines 146 to 147); else mutate feedback_msg
(lines 149 to 155), publish it (line 157), and if feedback_msg.reached_goal,
call succeed and break (lines 159 to 161).  Exhausting the list means the
real loop would still be iterating: outcome running. -/
def execLoop (cfg : Config) (goal : GoalRequest) :
    Feedback → List Tick → LoopResult
  | fb, [] => ⟨fb, [], Outcome.running, [], []⟩
  | fb, t :: ts =>
    if t.dt < cfg.timeout then
      match t.stat with
      | none =>
          let r := execLoop cfg goal fb ts
          { r with polled := t :: r.polled }
      | some s =>
          let fb2 := tickFeedback cfg goal fb s
          if fb2.reached_goal then
            ⟨fb2, [Event.feedback fb2, Event.succeed], Outcome.succeeded, [t], ts⟩
          else
            let r := execLoop cfg goal fb2 ts
            ⟨r.feedback_msg, Event.feedback fb2 :: r.events, r.outcome,
              t :: r.polled, r.rest⟩
    else ⟨fb, [], Outcome.timedOut, [], ts⟩

/-- Everything observable about one call of _execute_callback. -/
structure ExecOutput where
  events : List Event
  outcome : Outcome
  result_msg : Feedback
  polled : List Tick
  rest : List Tick
  ret : ExecReturn
deriving Repr, DecidableEq

/-- Robotiq85ActionServer._execute_callback (source lines 115 to 167).
Before the loop it builds cmd_msg from the goal position, the goal max_effort
and the configured gripper speed and publishes it once (lines 119 to 124),
and zero-initialises feedback_msg and result_msg (lines 129 to 131).  It then
runs the polling loop.  After the loop, line 166 rebinds result_msg to the
feedback_msg object, and line 167 executes return result, which raises
NameError because the name result is unbound; hence ret is that NameError
(meaningful once outcome is a terminal one, i.e. not running). -/
def executeCallback (cfg : Config) (goal : GoalRequest) (ticks : List Tick) :
    ExecOutput :=
  let cmd_msg : GripperCmd :=
    { position := goal.position, force := goal.max_effort, speed := cfg.gripper_speed }
  let r := execLoop cfg goal initFeedback ticks
  { events := Event.cmdSent cmd_msg :: r.events
    outcome := r.outcome
    result_msg := r.feedback_msg
    polled := r.polled
    rest := r.rest
    ret := ExecReturn.nameError "result" }

/-- The response type of rclpy goal callbacks. -/
inductive GoalResponse where
  | accept
  | reject
deriving Repr, DecidableEq

/-- The response type of rclpy cancel callbacks. -/
inductive CancelResponse where
  | accept
  | reject
deriving Repr, DecidableEq

/-- Robotiq85ActionServer._goal_callback (source lines 105 to 107): logs and
returns GoalResponse.ACCEPT unconditionally, for every goal request. -/
def goal_callback (_goal_request : GoalRequest) : GoalResponse :=
  GoalResponse.accept

/-- Robotiq85ActionServer._cancel_callback (source lines 110 to 112): logs and
returns CancelResponse.ACCEPT unconditionally, for every cancel request. -/
def cancel_callback (_goal_handle : Unit) : CancelResponse :=
  CancelResponse.accept

/-- Extracts the command of a command-publication event. -/
def cmdOf : Event → Option GripperCmd
  | Event.cmdSent c => some c
  | _ => none

/-- Extracts the feedback message of a feedback-publication event. -/
def feedbackOf : Event → Option Feedback
  | Event.feedback f => some f
  | _ => none

/-- A goal targeting position 0.04 m with max effort 10, matching the worked
example in the package documentation. -/
def sampleGoal : GoalRequest := { position := 1 / 25, max_effort := 10 }

/-- A run in which the caller has requested cancellation from the very first
tick, statuses never satisfy the line 153 condition, and the clock reaches
the timeout at the third tick. -/
def cancelledTicks : List Tick :=
  [ { dt := 0, stat := none, cancelRequested := true },
    { dt := 1, stat := some { position := 0, is_moving := true, obj_detected := false },
      cancelRequested := true },
    { dt := 5, stat := none, cancelRequested := true } ]

/-- A run with no status at all whose second tick reaches the timeout. -/
def lateTicks : List Tick :=
  [ { dt := 1, stat := none, cancelRequested := false },
    { dt := 6, stat := none, cancelRequested := false } ]

/-- A run with no status at all and the timeout never reached. -/
def quietTicks : List Tick :=
  [ { dt := 1, stat := none, cancelRequested := false },
    { dt := 2, stat := none, cancelRequested := false } ]

/-- A run whose status stream converges onto the 0.04 m target: nothing yet,
then 0.02, then 0.038 (within the 0.005 tolerance), then 0.041. -/
def convergingTicks : List Tick :=
  [ { dt := 1 / 100, stat := none, cancelRequested := false },
    { dt := 2 / 100,
      stat := some { position := 2 / 100, is_moving := true, obj_detected := false },
      cancelRequested := false },
    { dt := 3 / 100,
      stat := some { position := 38 / 1000, is_moving := true, obj_detected := false },
      cancelRequested := false },
    { dt := 4 / 100,
      stat := some { position := 41 / 1000, is_moving := false, obj_detected := false },
      cancelRequested := false } ]

/-- A first tick taken at the very start of an execution. -/
def immediateTick : Tick :=
  { dt := 0, stat := some { position := 0, is_moving := true, obj_detected := false },
    cancelRequested := false }

/-- The default configuration with the timeout parameter set to zero. -/
def zeroTimeoutConfig : Config :=
  { timeout := 0, position_tolerance := 1 / 200, gripper_speed := 113 / 2000 }

end Robotiq85

namespace Robotiq85

/-! Helper lemmas about a single status-carrying iteration. -/

theorem tickFeedback_position (cfg : Config) (goal : GoalRequest) (fb : Feedback)
    (s : GripperStat) : (tickFeedback cfg goal fb s).position = s.position := by
  unfold tickFeedback
  by_cases h : reachedCond cfg goal s <;> simp [h]

theorem tickFeedback_stalled (cfg : Config) (goal : GoalRequest) (fb : Feedback)
    (s : GripperStat) : (tickFeedback cfg goal fb s).stalled = !s.is_moving := by
  unfold tickFeedback
  by_cases h : reachedCond cfg goal s <;> simp [h]

theorem tickFeedback_reached (cfg : Config) (goal : GoalRequest) (fb : Feedback)
    (s : GripperStat) (hfb : fb.reached_goal = false) :
    (tickFeedback cfg goal fb s).reached_goal = reachedCond cfg goal s := by
  unfold tickFeedback
  by_cases h : reachedCond cfg goal s <;> simp [h, hfb]

/-! Helper lemmas about the polling loop. -/

theorem execLoop_nil (cfg : Config) (goal : GoalRequest) (fb : Feedback) :
    execLoop cfg goal fb [] = ⟨fb, [], Outcome.running, [], []⟩ := rfl

theorem execLoop_cons_timeout (cfg : Config) (goal : GoalRequest) (fb : Feedback)
    (t : Tick) (ts : List Tick) (hdt : ¬ t.dt < cfg.timeout) :
    execLoop cfg goal fb (t :: ts) = ⟨fb, [], Outcome.timedOut, [], ts⟩ := by
  simp [execLoop, hdt]

theorem execLoop_cons_none (cfg : Config) (goal : GoalRequest) (fb : Feedback)
    (t : Tick) (ts : List Tick) (hdt : t.dt < cfg.timeout) (hs : t.stat = none) :
    execLoop cfg goal fb (t :: ts) =
      { execLoop cfg goal fb ts with polled := t :: (execLoop cfg goal fb ts).polled } := by
  simp [execLoop, hdt, hs]

theorem execLoop_cons_reached (cfg : Config) (goal : GoalRequest) (fb : Feedback)
    (t : Tick) (ts : List Tick) (s : GripperStat) (hdt : t.dt < cfg.timeout)
    (hs : t.stat = some s) (hr : (tickFeedback cfg goal fb s).reached_goal = true) :
    execLoop cfg goal fb (t :: ts) =
      ⟨tickFeedback cfg goal fb s,
        [Event.feedback (tickFeedback cfg goal fb s), Event.succeed],
        Outcome.succeeded, [t], ts⟩ := by
  simp [execLoop, hdt, hs, hr]

theorem execLoop_cons_not_reached (cfg : Config) (goal : GoalRequest) (fb : Feedback)
    (t : Tick) (ts : List Tick) (s : GripperStat) (hdt : t.dt < cfg.timeout)
    (hs : t.stat = some s) (hr : (tickFeedback cfg goal fb s).reached_goal = false) :
    execLoop cfg goal fb (t :: ts) =
      ⟨(execLoop cfg goal (tickFeedback cfg goal fb s) ts).feedback_msg,
        Event.feedback (tickFeedback cfg goal fb s) ::
          (execLoop cfg goal (tickFeedback cfg goal fb s) ts).events,
        (execLoop cfg goal (tickFeedback cfg goal fb s) ts).outcome,
        t :: (execLoop cfg goal (tickFeedback cfg goal fb s) ts).polled,
        (execLoop cfg goal (tickFeedback cfg goal fb s) ts).rest⟩ := by
  simp [execLoop, hdt, hs, hr]

/-- The polling loop never publishes a command: self._gripper_pub.publish is
called only on source line 124, before the loop begins. -/
theorem execLoop_no_cmd (cfg : Config) (goal : GoalRequest) :
    ∀ (ts : List Tick) (fb : Feedback),
    (execLoop cfg goal fb ts).events.filterMap cmdOf = [] := by
  intro ts
  induction ts with
  | nil => intro fb; simp [execLoop_nil]
  | cons t ts ih =>
    intro fb
    by_cases hdt : t.dt < cfg.timeout
    · cases hs : t.stat with
      | none => rw [execLoop_cons_none cfg goal fb t ts hdt hs]; exact ih fb
      | some s =>
        by_cases hr : (tickFeedback cfg goal fb s).reached_goal = true
        · rw [execLoop_cons_reached cfg goal fb t ts s hdt hs hr]
          simp [cmdOf]
        · rw [execLoop_cons_not_reached cfg goal fb t ts s hdt hs
            (Bool.not_eq_true _ ▸ hr)]
          simp only [List.filterMap_cons, cmdOf]
          exact ih (tickFeedback cfg goal fb s)
    · rw [execLoop_cons_timeout cfg goal fb t ts hdt]; rfl

/-- C5: exactly one command goes out to the actuator per accepted goal, built
from the goal target position, the goal max effort and the configured gripper
speed, and it is published before any polling-loop event. -/
theorem single_dispatch (cfg : Config) (goal : GoalRequest) (ticks : List Tick) :
    (executeCallback cfg goal ticks).events.filterMap cmdOf =
      [{ position := goal.position, force := goal.max_effort, speed := cfg.gripper_speed }] ∧
    (executeCallback cfg goal ticks).events.head? =
      some (Event.cmdSent
        { position := goal.position, force := goal.max_effort, speed := cfg.gripper_speed }) := by
  constructor
  · simp only [executeCallback, List.filterMap_cons, cmdOf, execLoop_no_cmd]
  · simp [executeCallback]

/-- C8: the goal callback accepts every goal request and the cancel callback
accepts every cancel request. -/
theorem callbacks_always_accept :
    ∀ (g : GoalRequest) (h : Unit),
      goal_callback g = GoalResponse.accept ∧ cancel_callback h = CancelResponse.accept :=
  fun _ _ => ⟨rfl, rfl⟩


/-- Characterisation of success of the polling loop, starting from any
feedback message whose reached_goal flag is still clear: the loop succeeds
precisely when the tick list splits as pre ++ t :: post where every tick of
pre stays below the timeout and carries no status satisfying the line 153
condition, while t stays below the timeout and carries a status satisfying
it; in that case the loop stops on t, leaving exactly post unpolled. -/
theorem execLoop_succeeded_iff (cfg : Config) (goal : GoalRequest) :
    ∀ (ts : List Tick) (fb : Feedback), fb.reached_goal = false →
    ((execLoop cfg goal fb ts).outcome = Outcome.succeeded ↔
      ∃ pre t post s, ts = pre ++ t :: post ∧ t.stat = some s ∧ t.dt < cfg.timeout ∧
        reachedCond cfg goal s = true ∧ (execLoop cfg goal fb ts).rest = post ∧
        ∀ t2 ∈ pre, t2.dt < cfg.timeout ∧
          ∀ s2, t2.stat = some s2 → reachedCond cfg goal s2 = false) := by
  intro ts
  induction ts with
  | nil =>
    intro fb hfb
    rw [execLoop_nil]
    constructor
    · intro h; exact absurd h (by simp)
    · rintro ⟨pre, t, post, s, hsplit, -, -, -, -, -⟩
      exact absurd hsplit (by simp)
  | cons t ts ih =>
    intro fb hfb
    by_cases hdt : t.dt < cfg.timeout
    · cases hs : t.stat with
      | none =>
        rw [execLoop_cons_none cfg goal fb t ts hdt hs]
        dsimp only
        rw [ih fb hfb]
        constructor
        · rintro ⟨pre, t2, post, s, hsplit, hstat, hdt2, hcond, hrest, hpre⟩
          refine ⟨t :: pre, t2, post, s, by rw [hsplit, List.cons_append], hstat, hdt2,
            hcond, hrest, ?_⟩
          intro t3 ht3
          rcases List.mem_cons.mp ht3 with h3 | h3
          · subst h3; exact ⟨hdt, fun s2 hs2 => absurd (hs ▸ hs2) (by simp)⟩
          · exact hpre t3 h3
        · rintro ⟨pre, t2, post, s, hsplit, hstat, hdt2, hcond, hrest, hpre⟩
          cases pre with
          | nil =>
            simp only [List.nil_append, List.cons.injEq] at hsplit
            rcases hsplit with ⟨rfl, rfl⟩
            exact absurd hstat (by simp [hs])
          | cons p pre =>
            simp only [List.cons_append, List.cons.injEq] at hsplit
            rcases hsplit with ⟨rfl, hsplit⟩
            exact ⟨pre, t2, post, s, hsplit, hstat, hdt2, hcond, hrest,
              fun t3 ht3 => hpre t3 (List.mem_cons_of_mem _ ht3)⟩
      | some s =>
        by_cases hcond : reachedCond cfg goal s = true
        · have hfb2 : (tickFeedback cfg goal fb s).reached_goal = true := by
            rw [tickFeedback_reached cfg goal fb s hfb, hcond]
          rw [execLoop_cons_reached cfg goal fb t ts s hdt hs hfb2]
          dsimp only
          constructor
          · intro _
            exact ⟨[], t, ts, s, by simp, hs, hdt, hcond, rfl, by simp⟩
          · intro _; rfl
        · have hcond2 : reachedCond cfg goal s = false := by
            simpa using hcond
          have hfb2 : (tickFeedback cfg goal fb s).reached_goal = false := by
            rw [tickFeedback_reached cfg goal fb s hfb, hcond2]
          rw [execLoop_cons_not_reached cfg goal fb t ts s hdt hs hfb2]
          dsimp only
          rw [ih (tickFeedback cfg goal fb s) hfb2]
          constructor
          · rintro ⟨pre, t2, post, s2, hsplit, hstat, hdt2, hcond3, hrest, hpre⟩
            refine ⟨t :: pre, t2, post, s2, by rw [hsplit, List.cons_append], hstat, hdt2,
              hcond3, hrest, ?_⟩
            intro t3 ht3
            rcases List.mem_cons.mp ht3 with h3 | h3
            · subst h3
              refine ⟨hdt, fun s3 hs3 => ?_⟩
              rw [hs] at hs3
              cases hs3
              exact hcond2
            · exact hpre t3 h3
          · rintro ⟨pre, t2, post, s2, hsplit, hstat, hdt2, hcond3, hrest, hpre⟩
            cases pre with
            | nil =>
              simp only [List.nil_append, List.cons.injEq] at hsplit
              rcases hsplit with ⟨rfl, rfl⟩
              rw [hs] at hstat
              cases hstat
              exact absurd hcond3 (by simp [hcond2])
            | cons p pre =>
              simp only [List.cons_append, List.cons.injEq] at hsplit
              rcases hsplit with ⟨rfl, hsplit⟩
              exact ⟨pre, t2, post, s2, hsplit, hstat, hdt2, hcond3, hrest,
                fun t3 ht3 => hpre t3 (List.mem_cons_of_mem _ ht3)⟩
    · rw [execLoop_cons_timeout cfg goal fb t ts hdt]
      dsimp only
      constructor
      · intro h; exact absurd h (by simp)
      · rintro ⟨pre, t2, post, s, hsplit, hstat, hdt2, hcond, hrest, hpre⟩
        cases pre with
        | nil =>
          simp only [List.nil_append, List.cons.injEq] at hsplit
          rcases hsplit with ⟨rfl, rfl⟩
          exact absurd hdt2 hdt
        | cons p pre =>
          simp only [List.cons_append, List.cons.injEq] at hsplit
          rcases hsplit with ⟨rfl, hsplit⟩
          exact absurd (hpre t (List.mem_cons_self t _)).1 hdt

/-- C1: the executor transitions to Succeeded exactly when some polled tick,
reached before the timeout and after only ticks that stayed below the timeout
and carried no satisfying status, carries a status within position tolerance
of the goal target or reporting object detection; the loop stops on that very
tick, and it never succeeds otherwise. -/
theorem succeeds_iff_reached (cfg : Config) (goal : GoalRequest) (ticks : List Tick) :
    (executeCallback cfg goal ticks).outcome = Outcome.succeeded ↔
      ∃ pre t post s, ticks = pre ++ t :: post ∧ t.stat = some s ∧ t.dt < cfg.timeout ∧
        reachedCond cfg goal s = true ∧ (executeCallback cfg goal ticks).rest = post ∧
        ∀ t2 ∈ pre, t2.dt < cfg.timeout ∧
          ∀ s2, t2.stat = some s2 → reachedCond cfg goal s2 = false := by
  have h := execLoop_succeeded_iff cfg goal ticks initFeedback rfl
  simpa [executeCallback] using h


/-- When no supplied status ever satisfies the line 153 condition, the loop
never succeeds, the reached_goal flag stays clear, and the first tick whose
elapsed time is at least the timeout stops the loop with timedOut, leaving
exactly the later ticks unpolled. -/
theorem execLoop_no_reach_timeout (cfg : Config) (goal : GoalRequest) :
    ∀ (ts : List Tick) (fb : Feedback), fb.reached_goal = false →
    (∀ t ∈ ts, ∀ s, t.stat = some s → reachedCond cfg goal s = false) →
    (∃ t ∈ ts, cfg.timeout ≤ t.dt) →
    (execLoop cfg goal fb ts).outcome = Outcome.timedOut ∧
    (execLoop cfg goal fb ts).feedback_msg.reached_goal = false ∧
    ∃ pre t post, ts = pre ++ t :: post ∧ (∀ t2 ∈ pre, t2.dt < cfg.timeout) ∧
      cfg.timeout ≤ t.dt ∧ (execLoop cfg goal fb ts).rest = post := by
  intro ts
  induction ts with
  | nil =>
    intro fb hfb hno hex
    exact absurd hex (by simp)
  | cons t ts ih =>
    intro fb hfb hno hex
    by_cases hdt : t.dt < cfg.timeout
    · have hex2 : ∃ t2 ∈ ts, cfg.timeout ≤ t2.dt := by
        rcases hex with ⟨t2, ht2, hle⟩
        rcases List.mem_cons.mp ht2 with h2 | h2
        · subst h2; exact absurd hle (not_le.mpr hdt)
        · exact ⟨t2, h2, hle⟩
      have hno2 : ∀ t2 ∈ ts, ∀ s, t2.stat = some s → reachedCond cfg goal s = false :=
        fun t2 h2 => hno t2 (List.mem_cons_of_mem _ h2)
      cases hs : t.stat with
      | none =>
        rw [execLoop_cons_none cfg goal fb t ts hdt hs]
        dsimp only
        obtain ⟨h1, h2, pre, t2, post, hsplit, hpre, hle, hrest⟩ := ih fb hfb hno2 hex2
        refine ⟨h1, h2, t :: pre, t2, post, by rw [hsplit, List.cons_append], ?_, hle, hrest⟩
        intro t3 ht3
        rcases List.mem_cons.mp ht3 with h3 | h3
        · subst h3; exact hdt
        · exact hpre t3 h3
      | some s =>
        have hcond : reachedCond cfg goal s = false :=
          hno t (List.mem_cons_self t _) s hs
        have hfb2 : (tickFeedback cfg goal fb s).reached_goal = false := by
          rw [tickFeedback_reached cfg goal fb s hfb, hcond]
        rw [execLoop_cons_not_reached cfg goal fb t ts s hdt hs hfb2]
        dsimp only
        obtain ⟨h1, h2, pre, t2, post, hsplit, hpre, hle, hrest⟩ :=
          ih (tickFeedback cfg goal fb s) hfb2 hno2 hex2
        refine ⟨h1, h2, t :: pre, t2, post, by rw [hsplit, List.cons_append], ?_, hle, hrest⟩
        intro t3 ht3
        rcases List.mem_cons.mp ht3 with h3 | h3
        · subst h3; exact hdt
        · exact hpre t3 h3
    · rw [execLoop_cons_timeout cfg goal fb t ts hdt]
      exact ⟨rfl, hfb, [], t, ts, rfl, by simp, not_lt.mp hdt, rfl⟩

/-- C2: when no supplied status satisfies the tolerance-or-detection
condition and some tick reaches the timeout, the executor stops with
timedOut on the first such tick (polling none of the later ticks) and the
final result message reports reached_goal false. -/
theorem timeout_ends_execution (cfg : Config) (goal : GoalRequest) (ticks : List Tick)
    (hno : ∀ t ∈ ticks, ∀ s, t.stat = some s → reachedCond cfg goal s = false)
    (hex : ∃ t ∈ ticks, cfg.timeout ≤ t.dt) :
    (executeCallback cfg goal ticks).outcome = Outcome.timedOut ∧
    (executeCallback cfg goal ticks).result_msg.reached_goal = false ∧
    ∃ pre t post, ticks = pre ++ t :: post ∧ (∀ t2 ∈ pre, t2.dt < cfg.timeout) ∧
      cfg.timeout ≤ t.dt ∧ (executeCallback cfg goal ticks).rest = post := by
  have h := execLoop_no_reach_timeout cfg goal ticks initFeedback rfl hno hex
  simpa [executeCallback] using h

/-- A run over ticks that all lack a status and all stay below the timeout
changes nothing: no events, outcome still running, every tick polled. -/
theorem execLoop_all_none (cfg : Config) (goal : GoalRequest) :
    ∀ (ts : List Tick) (fb : Feedback), (∀ t ∈ ts, t.stat = none) →
    (∀ t ∈ ts, t.dt < cfg.timeout) →
    execLoop cfg goal fb ts = ⟨fb, [], Outcome.running, ts, []⟩ := by
  intro ts
  induction ts with
  | nil => intro fb _ _; rfl
  | cons t ts ih =>
    intro fb hstat hdt
    rw [execLoop_cons_none cfg goal fb t ts (hdt t (List.mem_cons_self t _))
      (hstat t (List.mem_cons_self t _))]
    rw [ih fb (fun t2 h => hstat t2 (List.mem_cons_of_mem _ h))
      (fun t2 h => hdt t2 (List.mem_cons_of_mem _ h))]

/-- C6: if the status feed never publishes anything and the timeout has not
yet elapsed on any tick, the executor emits nothing beyond the initial
command, reaches no terminal state, and keeps polling every tick. -/
theorem no_status_keeps_waiting (cfg : Config) (goal : GoalRequest) (ticks : List Tick)
    (hstat : ∀ t ∈ ticks, t.stat = none)
    (hdt : ∀ t ∈ ticks, t.dt < cfg.timeout) :
    (executeCallback cfg goal ticks).events =
      [Event.cmdSent
        { position := goal.position, force := goal.max_effort, speed := cfg.gripper_speed }] ∧
    (executeCallback cfg goal ticks).outcome = Outcome.running ∧
    (executeCallback cfg goal ticks).polled = ticks ∧
    (executeCallback cfg goal ticks).rest = [] := by
  have h := execLoop_all_none cfg goal ticks initFeedback hstat hdt
  simp [executeCallback, h]

/-- C9: with a non-positive configured timeout, the first tick already fails
the dt < timeout test, so the executor still publishes its one command, then
stops with timedOut having polled no tick, read no status, emitted no
feedback, and its result message reports reached_goal false. -/
theorem nonpositive_timeout_times_out (cfg : Config) (goal : GoalRequest)
    (t : Tick) (ts : List Tick) (h1 : cfg.timeout ≤ 0) (h2 : 0 ≤ t.dt) :
    (executeCallback cfg goal (t :: ts)).events =
      [Event.cmdSent
        { position := goal.position, force := goal.max_effort, speed := cfg.gripper_speed }] ∧
    (executeCallback cfg goal (t :: ts)).outcome = Outcome.timedOut ∧
    (executeCallback cfg goal (t :: ts)).result_msg.reached_goal = false ∧
    (executeCallback cfg goal (t :: ts)).polled = [] ∧
    (executeCallback cfg goal (t :: ts)).rest = ts := by
  have hdt : ¬ t.dt < cfg.timeout := not_lt.mpr (le_trans h1 h2)
  have h := execLoop_cons_timeout cfg goal initFeedback t ts hdt
  simp only [executeCallback, h]
  simp [initFeedback]


/-- Each status-carrying polled tick contributes exactly one feedback
publication, in order, whose position copies the status position and whose
stalled flag is the negation of is_moving (source lines 149, 150, 157);
ticks without a status contribute none. -/
theorem execLoop_feedback_matches (cfg : Config) (goal : GoalRequest) :
    ∀ (ts : List Tick) (fb : Feedback),
    List.Forall₂
      (fun (s : GripperStat) (f : Feedback) =>
        f.position = s.position ∧ f.stalled = !s.is_moving)
      ((execLoop cfg goal fb ts).polled.filterMap Tick.stat)
      ((execLoop cfg goal fb ts).events.filterMap feedbackOf) := by
  intro ts
  induction ts with
  | nil =>
    intro fb
    rw [execLoop_nil]
    simp
  | cons t ts ih =>
    intro fb
    by_cases hdt : t.dt < cfg.timeout
    · cases hs : t.stat with
      | none =>
        rw [execLoop_cons_none cfg goal fb t ts hdt hs]
        dsimp only
        rw [List.filterMap_cons_none hs]
        exact ih fb
      | some s =>
        by_cases hr : (tickFeedback cfg goal fb s).reached_goal = true
        · rw [execLoop_cons_reached cfg goal fb t ts s hdt hs hr]
          dsimp only
          rw [List.filterMap_cons_some hs]
          simp only [List.filterMap_cons, feedbackOf, List.filterMap_nil]
          exact List.Forall₂.cons
            ⟨tickFeedback_position cfg goal fb s, tickFeedback_stalled cfg goal fb s⟩
            List.Forall₂.nil
        · rw [execLoop_cons_not_reached cfg goal fb t ts s hdt hs
            (Bool.not_eq_true _ ▸ hr)]
          dsimp only
          rw [List.filterMap_cons_some hs]
          simp only [List.filterMap_cons, feedbackOf]
          exact List.Forall₂.cons
            ⟨tickFeedback_position cfg goal fb s, tickFeedback_stalled cfg goal fb s⟩
            (ih (tickFeedback cfg goal fb s))
    · rw [execLoop_cons_timeout cfg goal fb t ts hdt]
      simp

/-- C7: across any execution, the feedback publications correspond one to one
and in order with the polled ticks that carried a status, each feedback
copying that status position and negating its is_moving flag as stalled. -/
theorem feedback_matches_status (cfg : Config) (goal : GoalRequest) (ticks : List Tick) :
    List.Forall₂
      (fun (s : GripperStat) (f : Feedback) =>
        f.position = s.position ∧ f.stalled = !s.is_moving)
      ((executeCallback cfg goal ticks).polled.filterMap Tick.stat)
      ((executeCallback cfg goal ticks).events.filterMap feedbackOf) := by
  have h := execLoop_feedback_matches cfg goal ticks initFeedback
  simpa [executeCallback, feedbackOf] using h

/-- On a successful run the loop events end with the feedback that carries
reached_goal true followed immediately by the succeed call; every earlier
feedback has reached_goal false, and succeed appears nowhere earlier.  On a
non-successful run succeed is never called. -/
theorem execLoop_succeed_shape (cfg : Config) (goal : GoalRequest) :
    ∀ (ts : List Tick) (fb : Feedback), fb.reached_goal = false →
    (((execLoop cfg goal fb ts).outcome = Outcome.succeeded →
      ∃ evs f, (execLoop cfg goal fb ts).events = evs ++ [Event.feedback f, Event.succeed] ∧
        f.reached_goal = true ∧ (∀ f2, Event.feedback f2 ∈ evs → f2.reached_goal = false) ∧
        Event.succeed ∉ evs) ∧
    ((execLoop cfg goal fb ts).outcome ≠ Outcome.succeeded →
      Event.succeed ∉ (execLoop cfg goal fb ts).events)) := by
  intro ts
  induction ts with
  | nil =>
    intro fb hfb
    rw [execLoop_nil]
    exact ⟨fun h => absurd h (by simp), fun _ => by simp⟩
  | cons t ts ih =>
    intro fb hfb
    by_cases hdt : t.dt < cfg.timeout
    · cases hs : t.stat with
      | none =>
        rw [execLoop_cons_none cfg goal fb t ts hdt hs]
        dsimp only
        exact ih fb hfb
      | some s =>
        by_cases hcond : reachedCond cfg goal s = true
        · have hfb2 : (tickFeedback cfg goal fb s).reached_goal = true := by
            rw [tickFeedback_reached cfg goal fb s hfb, hcond]
          rw [execLoop_cons_reached cfg goal fb t ts s hdt hs hfb2]
          dsimp only
          refine ⟨fun _ => ⟨[], tickFeedback cfg goal fb s, by simp, hfb2, by simp, by simp⟩,
            fun h => absurd rfl h⟩
        · have hcond2 : reachedCond cfg goal s = false := by simpa using hcond
          have hfb2 : (tickFeedback cfg goal fb s).reached_goal = false := by
            rw [tickFeedback_reached cfg goal fb s hfb, hcond2]
          rw [execLoop_cons_not_reached cfg goal fb t ts s hdt hs hfb2]
          dsimp only
          obtain ⟨ha, hb⟩ := ih (tickFeedback cfg goal fb s) hfb2
          constructor
          · intro h
            obtain ⟨evs, f, hev, hf, hall, hnos⟩ := ha h
            refine ⟨Event.feedback (tickFeedback cfg goal fb s) :: evs, f, ?_, hf, ?_, ?_⟩
            · rw [hev, List.cons_append]
            · intro f2 hf2
              rcases List.mem_cons.mp hf2 with h2 | h2
              · rw [Event.feedback.injEq] at h2
                rw [h2]
                exact hfb2
              · exact hall f2 h2
            · intro hmem
              rcases List.mem_cons.mp hmem with h2 | h2
              · exact absurd h2 (by simp)
              · exact hnos h2
          · intro h hmem
            rcases List.mem_cons.mp hmem with h2 | h2
            · exact absurd h2 (by simp)
            · exact hb h h2
    · rw [execLoop_cons_timeout cfg goal fb t ts hdt]
      exact ⟨fun h => absurd h (by simp), fun _ => by simp⟩

/-- C10: on a successful run the feedback carrying reached_goal true is
published immediately before the succeed call, both on the terminal tick,
with every earlier feedback carrying reached_goal false; and succeed occurs
in the event trace only when the run succeeded, so nothing is published after
a terminal transition. -/
theorem feedback_precedes_succeed (cfg : Config) (goal : GoalRequest) (ticks : List Tick) :
    ((executeCallback cfg goal ticks).outcome = Outcome.succeeded →
      ∃ evs f, (executeCallback cfg goal ticks).events = evs ++ [Event.feedback f, Event.succeed] ∧
        f.reached_goal = true ∧ (∀ f2, Event.feedback f2 ∈ evs → f2.reached_goal = false) ∧
        Event.succeed ∉ evs) ∧
    (Event.succeed ∈ (executeCallback cfg goal ticks).events →
      (executeCallback cfg goal ticks).outcome = Outcome.succeeded) := by
  obtain ⟨ha, hb⟩ := execLoop_succeed_shape cfg goal ticks initFeedback rfl
  constructor
  · intro h
    have h2 : (execLoop cfg goal initFeedback ticks).outcome = Outcome.succeeded := by
      simpa [executeCallback] using h
    obtain ⟨evs, f, hev, hf, hall, hnos⟩ := ha h2
    refine ⟨Event.cmdSent
      { position := goal.position, force := goal.max_effort, speed := cfg.gripper_speed } :: evs,
      f, ?_, hf, ?_, ?_⟩
    · show Event.cmdSent _ :: (execLoop cfg goal initFeedback ticks).events = _
      rw [hev, List.cons_append]
    · intro f2 hf2
      rcases List.mem_cons.mp hf2 with h3 | h3
      · exact absurd h3 (by simp)
      · exact hall f2 h3
    · intro hmem
      rcases List.mem_cons.mp hmem with h3 | h3
      · exact absurd h3 (by simp)
      · exact hnos h3
  · intro hmem
    have h3 : Event.succeed ∈ (execLoop cfg goal initFeedback ticks).events := by
      have h4 := hmem
      simp only [executeCallback, List.mem_cons] at h4
      rcases h4 with h5 | h5
      · exact absurd h5 (by simp)
      · exact h5
    by_contra hno
    have h4 : (execLoop cfg goal initFeedback ticks).outcome ≠ Outcome.succeeded := by
      simpa [executeCallback] using hno
    exact hb h4 h3


/-- Witness for timeout_ends_execution at a concrete statusless run whose
second tick reaches the timeout. -/
theorem timeout_ends_execution_witness :
    (executeCallback defaultConfig sampleGoal lateTicks).outcome = Outcome.timedOut ∧
    (executeCallback defaultConfig sampleGoal lateTicks).result_msg.reached_goal = false ∧
    ∃ pre t post, lateTicks = pre ++ t :: post ∧
      (∀ t2 ∈ pre, t2.dt < defaultConfig.timeout) ∧
      defaultConfig.timeout ≤ t.dt ∧
      (executeCallback defaultConfig sampleGoal lateTicks).rest = post :=
  timeout_ends_execution defaultConfig sampleGoal lateTicks
    (by
      intro t ht s hs
      norm_num [lateTicks] at ht
      rcases ht with rfl | rfl <;> simp at hs)
    ⟨{ dt := 6, stat := none, cancelRequested := false },
      by norm_num [lateTicks], by norm_num [defaultConfig]⟩

/-- Witness for no_status_keeps_waiting at a concrete statusless run that
never reaches the timeout. -/
theorem no_status_keeps_waiting_witness :
    (executeCallback defaultConfig sampleGoal quietTicks).events =
      [Event.cmdSent
        { position := sampleGoal.position, force := sampleGoal.max_effort,
          speed := defaultConfig.gripper_speed }] ∧
    (executeCallback defaultConfig sampleGoal quietTicks).outcome = Outcome.running ∧
    (executeCallback defaultConfig sampleGoal quietTicks).polled = quietTicks ∧
    (executeCallback defaultConfig sampleGoal quietTicks).rest = [] :=
  no_status_keeps_waiting defaultConfig sampleGoal quietTicks
    (by
      intro t ht
      norm_num [quietTicks] at ht
      rcases ht with rfl | rfl <;> rfl)
    (by
      intro t ht
      norm_num [quietTicks] at ht
      rcases ht with rfl | rfl <;> norm_num [defaultConfig])

/-- Witness for nonpositive_timeout_times_out with the timeout parameter set
to zero and a first tick taken at elapsed time zero. -/
theorem nonpositive_timeout_times_out_witness :
    (executeCallback zeroTimeoutConfig sampleGoal (immediateTick :: [])).events =
      [Event.cmdSent
        { position := sampleGoal.position, force := sampleGoal.max_effort,
          speed := zeroTimeoutConfig.gripper_speed }] ∧
    (executeCallback zeroTimeoutConfig sampleGoal (immediateTick :: [])).outcome =
      Outcome.timedOut ∧
    (executeCallback zeroTimeoutConfig sampleGoal
        (immediateTick :: [])).result_msg.reached_goal = false ∧
    (executeCallback zeroTimeoutConfig sampleGoal (immediateTick :: [])).polled = [] ∧
    (executeCallback zeroTimeoutConfig sampleGoal (immediateTick :: [])).rest = [] :=
  nonpositive_timeout_times_out zeroTimeoutConfig sampleGoal immediateTick []
    (by norm_num [zeroTimeoutConfig]) (by norm_num [immediateTick])

/-- Witness for feedback_precedes_succeed on the converging run: it succeeds,
so its trace ends with the reached-goal feedback followed by succeed. -/
theorem feedback_precedes_succeed_witness :
    ∃ evs f, (executeCallback defaultConfig sampleGoal convergingTicks).events =
        evs ++ [Event.feedback f, Event.succeed] ∧
      f.reached_goal = true ∧
      (∀ f2, Event.feedback f2 ∈ evs → f2.reached_goal = false) ∧
      Event.succeed ∉ evs :=
  (feedback_precedes_succeed defaultConfig sampleGoal convergingTicks).1
    (by
      norm_num [executeCallback, execLoop, tickFeedback, reachedCond, initFeedback,
        defaultConfig, sampleGoal, convergingTicks, abs_lt])

/-- C3 (divergence witness): on a run whose every tick has cancellation
requested, the executor neither stops on the first tick nor reaches any
cancellation outcome: it keeps polling, publishes feedback on the
status-carrying second tick, and finally times out.  The Outcome type has no
cancellation constructor because _execute_callback never reads
goal_handle.is_cancel_requested. -/
theorem cancellation_never_consulted :
    (∀ t ∈ cancelledTicks, t.cancelRequested = true) ∧
    (executeCallback defaultConfig sampleGoal cancelledTicks).outcome = Outcome.timedOut ∧
    (executeCallback defaultConfig sampleGoal cancelledTicks).events =
      [Event.cmdSent { position := 1 / 25, force := 10, speed := 113 / 2000 },
        Event.feedback { position := 0, stalled := false, reached_goal := false }] := by
  refine ⟨?_, ?_, ?_⟩
  · intro t ht
    norm_num [cancelledTicks] at ht
    rcases ht with rfl | rfl | rfl <;> rfl
  · norm_num [executeCallback, execLoop, tickFeedback, reachedCond, initFeedback,
      defaultConfig, sampleGoal, cancelledTicks, abs_lt]
  · norm_num [executeCallback, execLoop, tickFeedback, reachedCond, initFeedback,
      defaultConfig, sampleGoal, cancelledTicks, abs_lt]

/-- C4 (divergence witness): a run that terminates (here by timeout) still
produces no return value: line 167 returns the unbound name result, so the
call raises NameError instead of handing any Result to the caller. -/
theorem terminal_return_raises_name_error :
    (executeCallback defaultConfig sampleGoal lateTicks).outcome = Outcome.timedOut ∧
    (executeCallback defaultConfig sampleGoal lateTicks).ret =
      ExecReturn.nameError "result" := by
  constructor
  · norm_num [executeCallback, execLoop, tickFeedback, reachedCond, initFeedback,
      defaultConfig, sampleGoal, lateTicks, abs_lt]
  · rfl

end Robotiq85
